import Mathlib

/-!
Shallow embedding of the wallet-ledger logic of backend/server.py:
the balance-mutation endpoints (deposit, withdraw, transfer), the VIP
and agency tier calculators, the commission-bracket lookup, the
Charity Lucky Wallet game arithmetic, and the mark-notification-read
update.  Money amounts are modelled as rationals; each endpoint is a
pure function from the request body, the wallet document (and, where
the handler draws one, the random number) to either an HTTP-error tag
or the documents it writes.  The embedding mirrors the source control
flow: every validation raises before any write, so the error branch
carries no mutated state and no appended records.
-/

/-- A wallet document from db.wallets: the named sub-balances and the
running totals.  Timestamps are not modelled. -/
structure Wallet where
  coins_balance : ℚ
  stars_balance : ℚ
  bonus_balance : ℚ
  withdrawable_balance : ℚ
  total_deposited : ℚ
  total_withdrawn : ℚ
deriving DecidableEq, Repr

/-- The HTTPException outcomes the embedded handlers can raise, one
tag per distinct detail message. -/
inductive ApiError where
  | amountNotPositive
  | maxDepositExceeded
  | insufficientBalance
  | invalidBalanceType
  | minBet
  | maxBet
deriving DecidableEq, Repr

/-- One db.wallet_transactions record, restricted to the fields the
claims mention (ids, description and timestamp are not modelled). -/
structure WalletTxn where
  transaction_type : String
  amount : ℚ
  currency_type : String
  status : String
deriving DecidableEq, Repr

/-- One entry of VIP_LEVELS_DATA. -/
structure VipLevel where
  level : ℕ
  name : String
  recharge_requirement : ℚ
  monthly_fee : ℚ
  charity_bonus : ℚ
  free_spins_daily : ℕ
  education_discount : ℚ
  priority_support : Bool
  withdrawal_priority : Bool
  exclusive_challenges : Bool
deriving DecidableEq, Repr

/-- The static VIP level table (badge colours and icons omitted). -/
def VIP_LEVELS_DATA : List VipLevel :=
  [ { level := 0, name := "Basic", recharge_requirement := 0, monthly_fee := 0,
      charity_bonus := 0, free_spins_daily := 0, education_discount := 0,
      priority_support := false, withdrawal_priority := false, exclusive_challenges := false },
    { level := 1, name := "Bronze", recharge_requirement := 500, monthly_fee := 99,
      charity_bonus := 5, free_spins_daily := 2, education_discount := 5,
      priority_support := false, withdrawal_priority := false, exclusive_challenges := false },
    { level := 2, name := "Silver", recharge_requirement := 2000, monthly_fee := 299,
      charity_bonus := 10, free_spins_daily := 5, education_discount := 10,
      priority_support := true, withdrawal_priority := false, exclusive_challenges := false },
    { level := 3, name := "Gold", recharge_requirement := 5000, monthly_fee := 599,
      charity_bonus := 15, free_spins_daily := 10, education_discount := 15,
      priority_support := true, withdrawal_priority := true, exclusive_challenges := true },
    { level := 4, name := "Platinum", recharge_requirement := 15000, monthly_fee := 999,
      charity_bonus := 20, free_spins_daily := 20, education_discount := 20,
      priority_support := true, withdrawal_priority := true, exclusive_challenges := true },
    { level := 5, name := "Diamond", recharge_requirement := 50000, monthly_fee := 1999,
      charity_bonus := 30, free_spins_daily := 50, education_discount := 30,
      priority_support := true, withdrawal_priority := true, exclusive_challenges := true } ]

/-- The level-selection scan performed inline in the deposit endpoint:
starting from eligible_level = 0, walk VIP_LEVELS_DATA in order and
keep the level of every entry whose recharge_requirement is met, so
the last satisfied entry wins. -/
def eligibleVipLevel (total_recharged : ℚ) : ℕ :=
  VIP_LEVELS_DATA.foldl
    (fun acc ld => if total_recharged ≥ ld.recharge_requirement then ld.level else acc) 0

/-- POST /wallet/deposit.  Validates the amount (positive, at most
100000), then increments coins_balance and total_deposited, appends
one completed deposit transaction whose amount is the deposit amount,
and computes the eligible VIP level from the incremented
total_recharged counter of the vip_status document. -/
def deposit (amount : ℚ) (w : Wallet) (total_recharged : ℚ) :
    Except ApiError (Wallet × List WalletTxn × ℕ) :=
  if amount ≤ 0 then .error .amountNotPositive
  else if amount > 100000 then .error .maxDepositExceeded
  else
    let w2 : Wallet :=
      { w with coins_balance := w.coins_balance + amount,
               total_deposited := w.total_deposited + amount }
    let txn : WalletTxn :=
      { transaction_type := "deposit", amount := amount,
        currency_type := "coins", status := "completed" }
    .ok (w2, [txn], eligibleVipLevel (total_recharged + amount))

/-- POST /wallet/withdraw.  Validates the amount, checks the
withdrawable balance read from the wallet document, then decrements
withdrawable_balance, increments total_withdrawn, and appends one
pending withdrawal transaction with the negated amount. -/
def withdraw (amount : ℚ) (w : Wallet) : Except ApiError (Wallet × List WalletTxn) :=
  if amount ≤ 0 then .error .amountNotPositive
  else if w.withdrawable_balance < amount then .error .insufficientBalance
  else
    let w2 : Wallet :=
      { w with withdrawable_balance := w.withdrawable_balance - amount,
               total_withdrawn := w.total_withdrawn + amount }
    let txn : WalletTxn :=
      { transaction_type := "withdrawal", amount := -amount,
        currency_type := "coins", status := "pending" }
    .ok (w2, [txn])

/-- Read a wallet sub-balance by its document key (only ever applied
to the four valid keys; unknown keys read 0). -/
def getField (w : Wallet) (f : String) : ℚ :=
  if f = "coins_balance" then w.coins_balance
  else if f = "bonus_balance" then w.bonus_balance
  else if f = "stars_balance" then w.stars_balance
  else if f = "withdrawable_balance" then w.withdrawable_balance
  else 0

/-- Write a wallet sub-balance by its document key. -/
def setField (w : Wallet) (f : String) (v : ℚ) : Wallet :=
  if f = "coins_balance" then { w with coins_balance := v }
  else if f = "bonus_balance" then { w with bonus_balance := v }
  else if f = "stars_balance" then { w with stars_balance := v }
  else if f = "withdrawable_balance" then { w with withdrawable_balance := v }
  else w

/-- Insert a key into an association list with Python dict semantics:
inserting an existing key overwrites its value in place. -/
def dictInsert (d : List (String × ℚ)) (k : String) (v : ℚ) : List (String × ℚ) :=
  match d with
  | [] => [(k, v)]
  | (k2, v2) :: rest => if k2 = k then (k, v) :: rest else (k2, v2) :: dictInsert rest k v

/-- The $inc document of the transfer endpoint, built exactly as the
Python dict literal with keys from_field and to_field: when the two
keys coincide, the credit entry overwrites the debit entry. -/
def transferIncDoc (from_field to_field : String) (amount : ℚ) : List (String × ℚ) :=
  dictInsert (dictInsert [] from_field (-amount)) to_field amount

/-- Apply a $inc document to a wallet, one key at a time. -/
def applyInc (w : Wallet) (doc : List (String × ℚ)) : Wallet :=
  doc.foldl (fun w2 kv => setField w2 kv.1 (getField w2 kv.1 + kv.2)) w

/-- The valid_balances list of the transfer endpoint. -/
def valid_balances : List String :=
  [ "coins_balance", "bonus_balance", "stars_balance", "withdrawable_balance" ]

/-- POST /wallet/transfer.  Validates the two balance names and the
amount, checks the source sub-balance, then applies the single $inc
update built from the dict literal.  The handler inserts no
wallet-transaction record, so the returned list of appended
transactions is empty. -/
def transfer_balance (amount : ℚ) (from_balance to_balance : String) (w : Wallet) :
    Except ApiError (Wallet × List WalletTxn) :=
  let from_field := from_balance ++ "_balance"
  let to_field := to_balance ++ "_balance"
  if from_field ∉ valid_balances ∨ to_field ∉ valid_balances then .error .invalidBalanceType
  else if amount ≤ 0 then .error .amountNotPositive
  else if getField w from_field < amount then .error .insufficientBalance
  else .ok (applyInc w (transferIncDoc from_field to_field amount), [])

/-- One entry of the legacy AGENCY_LEVELS dict, keyed by its level. -/
structure AgencyLevel where
  level : ℕ
  name : String
  commission_rate : ℕ
  monthly_threshold : ℚ
deriving DecidableEq, Repr

/-- The AGENCY_LEVELS table, listed in ascending key order as in the
source dict literal. -/
def AGENCY_LEVELS : List AgencyLevel :=
  [ { level := 0, name := "Member", commission_rate := 0, monthly_threshold := 0 },
    { level := 1, name := "Agent Level 1", commission_rate := 4, monthly_threshold := 0 },
    { level := 2, name := "Agent Level 2", commission_rate := 8, monthly_threshold := 2000000 },
    { level := 3, name := "Agent Level 3", commission_rate := 12, monthly_threshold := 10000000 },
    { level := 4, name := "Agent Level 4", commission_rate := 16, monthly_threshold := 50000000 },
    { level := 5, name := "Agent Level 5", commission_rate := 20, monthly_threshold := 150000000 } ]

/-- The loop body of get_agent_level: iterate the levels sorted by key
in reverse and return the first level whose 30-day threshold is met;
the fallback when nothing matches is 0. -/
def agentLevelLoop (total_earnings : ℚ) : List AgencyLevel → ℕ
  | [] => 0
  | info :: rest =>
      if total_earnings ≥ info.monthly_threshold then info.level
      else agentLevelLoop total_earnings rest

/-- get_agent_level: agent level from 30-day earnings.  The dict keys
are ascending in the literal, so sorting the items by key in reverse
is reversing the list. -/
def get_agent_level (total_earnings : ℚ) : ℕ :=
  agentLevelLoop total_earnings AGENCY_LEVELS.reverse

/-- One entry of COMMISSION_BRACKETS. -/
structure CommissionBracket where
  min : ℚ
  max : ℚ
  rate : ℕ
deriving DecidableEq, Repr

/-- The commission brackets based on 30-day earnings. -/
def COMMISSION_BRACKETS : List CommissionBracket :=
  [ { min := 0, max := 2000000, rate := 4 },
    { min := 2000001, max := 10000000, rate := 8 },
    { min := 10000001, max := 50000000, rate := 12 },
    { min := 50000001, max := 150000000, rate := 16 },
    { min := 150000001, max := 999999999999, rate := 20 } ]

/-- The loop body of get_commission_rate: return the first bracket
whose inclusive [min, max] range holds the earnings; on fallthrough
return rate 20 with the last bracket of the table. -/
def commissionLoop (total_earnings : ℚ) : List CommissionBracket → ℕ × CommissionBracket
  | [] => (20, COMMISSION_BRACKETS.getLastD { min := 0, max := 0, rate := 20 })
  | b :: rest =>
      if b.min ≤ total_earnings ∧ total_earnings ≤ b.max then (b.rate, b)
      else commissionLoop total_earnings rest

/-- get_commission_rate: commission rate and bracket from 30-day
earnings. -/
def get_commission_rate (total_earnings : ℚ) : ℕ × CommissionBracket :=
  commissionLoop total_earnings COMMISSION_BRACKETS

/-- Round half to even at integer precision, the rounding of Python
round applied to an exactly represented value. -/
def roundHalfEven (x : ℚ) : ℤ :=
  if x - ⌊x⌋ < 1/2 then ⌊x⌋
  else if x - ⌊x⌋ > 1/2 then ⌊x⌋ + 1
  else if ⌊x⌋ % 2 = 0 then ⌊x⌋ else ⌊x⌋ + 1

/-- Python round(x, 2). -/
def round2 (x : ℚ) : ℚ := (roundHalfEven (x * 100) : ℚ) / 100

/-- CHARITY_LUCKY_WALLET_CONFIG. -/
structure LuckyWalletConfig where
  winning_rate : ℕ
  win_user_percent : ℚ
  win_charity_percent : ℚ
  lose_charity_percent : ℚ
  lose_platform_percent : ℚ
  min_bet : ℚ
  max_bet : ℚ
deriving Repr

def CHARITY_LUCKY_WALLET_CONFIG : LuckyWalletConfig :=
  { winning_rate := 45, win_user_percent := 70, win_charity_percent := 30,
    lose_charity_percent := 45, lose_platform_percent := 55,
    min_bet := 10, max_bet := 100000 }

/-- The outcome fields of one Lucky Wallet play, as stored in the game
record of db.lucky_wallet_challenges. -/
structure LuckyWalletOutcome where
  result : String
  won_amount : ℚ
  charity_amount : ℚ
  platform_amount : ℚ
  balance_change : ℚ
  new_balance : ℚ
deriving DecidableEq, Repr

/-- POST /lucky-wallet/play with the random draw random_number drawn
from 1..100.  Validates the bet against min_bet and max_bet, checks
the coins balance, then wins iff random_number is at most the winning
rate.  On a win the user is paid 70 percent of the bet (rounded to two
decimals) with 30 percent to charity; on a loss the full bet is taken
with a 45 and 55 percent charity and platform split.  The coins
balance is set to the rounded new balance, and one completed
transaction for the balance change is appended. -/
def play_lucky_wallet (bet_amount : ℚ) (random_number : ℕ) (w : Wallet) :
    Except ApiError (Wallet × LuckyWalletOutcome × List WalletTxn) :=
  if bet_amount < CHARITY_LUCKY_WALLET_CONFIG.min_bet then .error .minBet
  else if bet_amount > CHARITY_LUCKY_WALLET_CONFIG.max_bet then .error .maxBet
  else if w.coins_balance < bet_amount then .error .insufficientBalance
  else
    let is_winner := random_number ≤ CHARITY_LUCKY_WALLET_CONFIG.winning_rate
    let parts : String × ℚ × ℚ × ℚ × ℚ :=
      if is_winner then
        let won := round2 (bet_amount * (CHARITY_LUCKY_WALLET_CONFIG.win_user_percent / 100))
        let charity := round2 (bet_amount * (CHARITY_LUCKY_WALLET_CONFIG.win_charity_percent / 100))
        ("win", won, charity, 0, won - bet_amount)
      else
        let charity := round2 (bet_amount * (CHARITY_LUCKY_WALLET_CONFIG.lose_charity_percent / 100))
        let platform := round2 (bet_amount * (CHARITY_LUCKY_WALLET_CONFIG.lose_platform_percent / 100))
        ("lose", 0, charity, platform, -bet_amount)
    match parts with
    | (result, won_amount, charity_amount, platform_amount, balance_change) =>
      let new_balance := w.coins_balance + balance_change
      let w2 : Wallet := { w with coins_balance := round2 new_balance }
      let outcome : LuckyWalletOutcome :=
        { result := result, won_amount := won_amount, charity_amount := charity_amount,
          platform_amount := platform_amount, balance_change := balance_change,
          new_balance := round2 new_balance }
      let txn : WalletTxn :=
        { transaction_type := if result = "lose" then "lucky_wallet_bet" else "lucky_wallet_win",
          amount := balance_change, currency_type := "coins", status := "completed" }
      .ok (w2, outcome, [txn])

/-- One db.notifications document (fields relevant to mark-read). -/
structure NotificationDoc where
  notification_id : String
  user_id : String
  title : String
  message : String
  notification_type : String
  is_read : Bool
  action_url : String
deriving DecidableEq, Repr

/-- update_one semantics: apply f to the first document matching p and
leave every other document unchanged. -/
def updateOne {α : Type} (p : α → Bool) (f : α → α) : List α → List α
  | [] => []
  | x :: xs => if p x then f x :: xs else x :: updateOne p f xs

/-- POST /notifications/id/read: set is_read on the single document
matched by notification_id and user_id, and return success
unconditionally. -/
def mark_notification_read (notification_id user_id : String)
    (store : List NotificationDoc) : List NotificationDoc × Bool :=
  (updateOne (fun n => n.notification_id == notification_id && n.user_id == user_id)
     (fun n => { n with is_read := true }) store, true)

instance {ε α : Type} [DecidableEq ε] [DecidableEq α] : DecidableEq (Except ε α) := fun x y =>
  match x, y with
  | .error a, .error b =>
      if h : a = b then isTrue (by rw [h])
      else isFalse (fun hc => by injection hc; contradiction)
  | .error _, .ok _ => isFalse (fun hc => Except.noConfusion hc)
  | .ok _, .error _ => isFalse (fun hc => Except.noConfusion hc)
  | .ok a, .ok b =>
      if h : a = b then isTrue (by rw [h])
      else isFalse (fun hc => by injection hc; contradiction)

/-!
Helper lemmas: closed forms of the two tier scans, field access over
the four valid keys, update-one behaviour, and exactness of round2 on
values that are whole numbers of hundredths.
-/

lemma eligibleVipLevel_closed (v : ℚ) (hv : 0 ≤ v) :
    eligibleVipLevel v =
      if 50000 ≤ v then 5 else if 15000 ≤ v then 4 else if 5000 ≤ v then 3
      else if 2000 ≤ v then 2 else if 500 ≤ v then 1 else 0 := by
  simp only [eligibleVipLevel, VIP_LEVELS_DATA, List.foldl_cons, List.foldl_nil, ge_iff_le]
  split_ifs <;> first | rfl | linarith

lemma agency_levels_reverse :
    AGENCY_LEVELS.reverse =
      [ { level := 5, name := "Agent Level 5", commission_rate := 20, monthly_threshold := 150000000 },
        { level := 4, name := "Agent Level 4", commission_rate := 16, monthly_threshold := 50000000 },
        { level := 3, name := "Agent Level 3", commission_rate := 12, monthly_threshold := 10000000 },
        { level := 2, name := "Agent Level 2", commission_rate := 8, monthly_threshold := 2000000 },
        { level := 1, name := "Agent Level 1", commission_rate := 4, monthly_threshold := 0 },
        { level := 0, name := "Member", commission_rate := 0, monthly_threshold := 0 } ] := by
  rfl

lemma get_agent_level_closed (v : ℚ) (hv : 0 ≤ v) :
    get_agent_level v =
      if 150000000 ≤ v then 5 else if 50000000 ≤ v then 4 else if 10000000 ≤ v then 3
      else if 2000000 ≤ v then 2 else 1 := by
  rw [get_agent_level, agency_levels_reverse]
  simp only [agentLevelLoop, ge_iff_le]
  split_ifs <;> first | rfl | linarith

lemma getField_setField_self (w : Wallet) (f : String) (v : ℚ) (hf : f ∈ valid_balances) :
    getField (setField w f v) f = v := by
  fin_cases hf <;> simp [getField, setField]

lemma updateOne_length {α : Type} (p : α → Bool) (f : α → α) (l : List α) :
    (updateOne p f l).length = l.length := by
  induction l with
  | nil => rfl
  | cons x xs ih =>
      simp only [updateOne]
      split_ifs <;> simp [ih]

lemma updateOne_eq_self {α : Type} (p : α → Bool) (f : α → α) (l : List α)
    (h : ∀ x ∈ l, p x = true → f x = x) : updateOne p f l = l := by
  induction l with
  | nil => rfl
  | cons x xs ih =>
      simp only [updateOne]
      split_ifs with hp
      · rw [h x (by simp) hp]
      · rw [ih (fun d hd hm => h d (by simp [hd]) hm)]

lemma roundHalfEven_intCast (k : ℤ) : roundHalfEven (k : ℚ) = k := by
  unfold roundHalfEven
  rw [Int.floor_intCast]
  norm_num

lemma round2_eq_self (x : ℚ) (k : ℤ) (hk : x * 100 = (k : ℚ)) : round2 x = x := by
  unfold round2
  rw [hk, roundHalfEven_intCast]
  field_simp
  linarith [hk]

lemma commissionLoop_no_match (v : ℚ) (l : List CommissionBracket)
    (h : ∀ b ∈ l, ¬ (b.min ≤ v ∧ v ≤ b.max)) :
    commissionLoop v l = (20, COMMISSION_BRACKETS.getLastD { min := 0, max := 0, rate := 20 }) := by
  induction l with
  | nil => rfl
  | cons x xs ih =>
      simp only [commissionLoop]
      rw [if_neg (h x (by simp))]
      exact ih (fun b hb => h b (by simp [hb]))

/-- C1 (counterexample): a bet of 5 coins against a wallet holding 3
coins exceeds the coins balance, yet play_lucky_wallet rejects it with
the minimum-bet error rather than the insufficient-balance error,
because the bet-bound validations run before the balance check. -/
theorem play_below_minbet_cex :
    ({ coins_balance := 3, stars_balance := 0, bonus_balance := 0, withdrawable_balance := 0,
       total_deposited := 0, total_withdrawn := 0 } : Wallet).coins_balance < 5 ∧
    play_lucky_wallet 5 1
        { coins_balance := 3, stars_balance := 0, bonus_balance := 0, withdrawable_balance := 0,
          total_deposited := 0, total_withdrawn := 0 } = .error .minBet ∧
    ApiError.minBet ≠ ApiError.insufficientBalance := by
  decide

/-- C1 (amended): for each debit operation (withdraw against
withdrawable_balance, transfer_balance out of a sub-balance,
play_lucky_wallet against coins_balance), whenever the amount exceeds
the relevant balance the request is rejected with some error — so no
wallet field is mutated and no transaction is appended — and the error
is precisely InsufficientBalance whenever the request also passes the
validations that the handler runs before the balance check (positive
amount; valid balance keys for transfer; bet within the configured
min and max for the game). -/
theorem debit_insufficient (a : ℚ) (w : Wallet) (fb tb : String) (n : ℕ) :
    (w.withdrawable_balance < a → ∃ e, withdraw a w = .error e) ∧
    (0 < a → w.withdrawable_balance < a → withdraw a w = .error .insufficientBalance) ∧
    (getField w (fb ++ "_balance") < a → ∃ e, transfer_balance a fb tb w = .error e) ∧
    (0 < a → (fb ++ "_balance") ∈ valid_balances → (tb ++ "_balance") ∈ valid_balances →
      getField w (fb ++ "_balance") < a →
      transfer_balance a fb tb w = .error .insufficientBalance) ∧
    (w.coins_balance < a → ∃ e, play_lucky_wallet a n w = .error e) ∧
    (10 ≤ a → a ≤ 100000 → w.coins_balance < a →
      play_lucky_wallet a n w = .error .insufficientBalance) := by
  refine ⟨?_, ?_, ?_, ?_, ?_, ?_⟩
  · intro h
    by_cases ha : a ≤ 0
    · exact ⟨.amountNotPositive, by simp [withdraw, ha]⟩
    · exact ⟨.insufficientBalance, by simp [withdraw, ha, h]⟩
  · intro h1 h2
    simp [withdraw, not_le.mpr h1, h2]
  · intro h
    simp only [transfer_balance]
    split_ifs with g1 g2
    · exact ⟨_, rfl⟩
    · exact ⟨_, rfl⟩
    · exact ⟨_, rfl⟩
  · intro h1 h2 h3 h4
    simp [transfer_balance, h2, h3, not_le.mpr h1, h4]
  · intro h
    simp only [play_lucky_wallet]
    split_ifs with g1 g2
    · exact ⟨_, rfl⟩
    · exact ⟨_, rfl⟩
    · exact ⟨_, rfl⟩
  · intro h1 h2 h3
    have g1 : ¬ a < CHARITY_LUCKY_WALLET_CONFIG.min_bet := by
      simp only [CHARITY_LUCKY_WALLET_CONFIG]
      push_neg
      exact h1
    have g2 : ¬ a > CHARITY_LUCKY_WALLET_CONFIG.max_bet := by
      simp only [CHARITY_LUCKY_WALLET_CONFIG]
      push_neg
      exact h2
    simp [play_lucky_wallet, g1, g2, h3]

/-- C1 (witness): a debit of 20 against a wallet whose sub-balances
all hold 5 is rejected with InsufficientBalance by withdraw, transfer
and the game. -/
theorem debit_insufficient_witness :
    withdraw 20
        { coins_balance := 5, stars_balance := 5, bonus_balance := 5, withdrawable_balance := 5,
          total_deposited := 0, total_withdrawn := 0 } = .error .insufficientBalance ∧
    transfer_balance 20 ("coins") ("stars")
        { coins_balance := 5, stars_balance := 5, bonus_balance := 5, withdrawable_balance := 5,
          total_deposited := 0, total_withdrawn := 0 } = .error .insufficientBalance ∧
    play_lucky_wallet 20 50
        { coins_balance := 5, stars_balance := 5, bonus_balance := 5, withdrawable_balance := 5,
          total_deposited := 0, total_withdrawn := 0 } = .error .insufficientBalance := by
  have h := debit_insufficient 20
    { coins_balance := 5, stars_balance := 5, bonus_balance := 5, withdrawable_balance := 5,
      total_deposited := 0, total_withdrawn := 0 } ("coins") ("stars") 50
  exact ⟨h.2.1 (by norm_num) (by norm_num),
    h.2.2.2.1 (by norm_num) (by decide) (by decide) (by decide),
    h.2.2.2.2.2 (by norm_num) (by norm_num) (by norm_num)⟩

/-- C2: a deposit of a with 0 < a and a at most the 100000 cap adds a
to coins_balance and to total_deposited, leaves every other wallet
field unchanged, and appends exactly one completed transaction with
amount a; any other amount is rejected and nothing is written. -/
theorem deposit_spec (a : ℚ) (w : Wallet) (tr : ℚ) :
    (0 < a → a ≤ 100000 →
      deposit a w tr =
        .ok ({ w with coins_balance := w.coins_balance + a,
                      total_deposited := w.total_deposited + a },
             [ { transaction_type := "deposit", amount := a,
                 currency_type := "coins", status := "completed" } ],
             eligibleVipLevel (tr + a))) ∧
    (a ≤ 0 ∨ 100000 < a → ∃ e, deposit a w tr = .error e) := by
  constructor
  · intro h1 h2
    simp [deposit, not_le.mpr h1, not_lt.mpr h2]
  · rintro (h | h)
    · exact ⟨.amountNotPositive, by simp [deposit, h]⟩
    · have h0 : ¬ a ≤ 0 := by linarith
      exact ⟨.maxDepositExceeded, by simp [deposit, h0, h]⟩

/-- C2 (witness): depositing 50 into an empty wallet. -/
theorem deposit_spec_witness :
    deposit 50
        { coins_balance := 0, stars_balance := 0, bonus_balance := 0, withdrawable_balance := 0,
          total_deposited := 0, total_withdrawn := 0 } 0 =
      .ok ({ coins_balance := (0 : ℚ) + 50, stars_balance := 0, bonus_balance := 0,
             withdrawable_balance := 0, total_deposited := (0 : ℚ) + 50, total_withdrawn := 0 },
           [ { transaction_type := "deposit", amount := 50, currency_type := "coins",
               status := "completed" } ],
           eligibleVipLevel (0 + 50)) :=
  (deposit_spec 50
    { coins_balance := 0, stars_balance := 0, bonus_balance := 0, withdrawable_balance := 0,
      total_deposited := 0, total_withdrawn := 0 } 0).1 (by norm_num) (by norm_num)

/-- C3 (counterexample): a successful transfer of 10 coins to stars
changes two wallet balances yet appends no wallet-transaction record
— the list of appended transactions is empty. -/
theorem transfer_mutates_without_txn_cex :
    transfer_balance 10 ("coins") ("stars")
        { coins_balance := 100, stars_balance := 0, bonus_balance := 0, withdrawable_balance := 0,
          total_deposited := 0, total_withdrawn := 0 } =
      .ok ({ coins_balance := 90, stars_balance := 10, bonus_balance := 0, withdrawable_balance := 0,
             total_deposited := 0, total_withdrawn := 0 }, []) ∧
    ({ coins_balance := 90, stars_balance := 10, bonus_balance := 0, withdrawable_balance := 0,
       total_deposited := 0, total_withdrawn := 0 } : Wallet) ≠
      { coins_balance := 100, stars_balance := 0, bonus_balance := 0, withdrawable_balance := 0,
        total_deposited := 0, total_withdrawn := 0 } := by
  constructor
  · simp +decide only [transfer_balance, valid_balances, transferIncDoc, dictInsert, applyInc,
      getField, setField, List.foldl]
    norm_num
  · decide

/-- C3 (amended): every successful deposit, withdraw and
play_lucky_wallet appends exactly one wallet-transaction record
alongside its balance mutation, but a successful transfer_balance
mutates the wallet with no transaction record appended at all. -/
theorem mutation_appends_one_txn (a : ℚ) (w : Wallet) (tr : ℚ) (n : ℕ) (fb tb : String) :
    (∀ w2 txns lvl, deposit a w tr = .ok (w2, txns, lvl) → txns.length = 1) ∧
    (∀ w2 txns, withdraw a w = .ok (w2, txns) → txns.length = 1) ∧
    (∀ w2 out txns, play_lucky_wallet a n w = .ok (w2, out, txns) → txns.length = 1) ∧
    (∀ w2 txns, transfer_balance a fb tb w = .ok (w2, txns) → txns = []) := by
  refine ⟨?_, ?_, ?_, ?_⟩
  · intro w2 txns lvl h
    simp only [deposit] at h
    split_ifs at h <;>
      first
        | (simp only [Except.ok.injEq, Prod.mk.injEq] at h
           obtain ⟨-, rfl, -⟩ := h
           rfl)
        | simp_all
  · intro w2 txns h
    simp only [withdraw] at h
    split_ifs at h <;>
      first
        | (simp only [Except.ok.injEq, Prod.mk.injEq] at h
           obtain ⟨-, rfl⟩ := h
           rfl)
        | simp_all
  · intro w2 out txns h
    simp only [play_lucky_wallet] at h
    split_ifs at h <;>
      first
        | (simp only [Except.ok.injEq, Prod.mk.injEq] at h
           obtain ⟨-, -, rfl⟩ := h
           rfl)
        | simp_all
  · intro w2 txns h
    simp only [transfer_balance] at h
    split_ifs at h <;>
      first
        | (simp only [Except.ok.injEq, Prod.mk.injEq] at h
           obtain ⟨-, rfl⟩ := h
           rfl)
        | simp_all

/-- C3 (witness): the transaction list of a successful deposit of 50
has length one. -/
theorem mutation_appends_one_txn_witness :
    ([ { transaction_type := "deposit", amount := (50 : ℚ), currency_type := "coins",
         status := "completed" } ] : List WalletTxn).length = 1 :=
  (mutation_appends_one_txn 50
    { coins_balance := 0, stars_balance := 0, bonus_balance := 0, withdrawable_balance := 0,
      total_deposited := 0, total_withdrawn := 0 } 0 0 ("coins") ("stars")).1
    { coins_balance := 50, stars_balance := 0, bonus_balance := 0, withdrawable_balance := 0,
      total_deposited := 50, total_withdrawn := 0 } _ 0
    (by norm_num [deposit, eligibleVipLevel, VIP_LEVELS_DATA])

/-- C4 (counterexample): a total_recharged of exactly 4999 does not
make the user eligible for VIP level 1 under the level-selection scan
over VIP_LEVELS_DATA. -/
theorem vip_4999_not_level1 : eligibleVipLevel 4999 ≠ 1 := by
  decide

/-- C4 (amended): a total_recharged of exactly 4999 yields eligible
VIP level 2, whose table entry is named Silver, and exactly 5000
yields level 3, whose entry is named Gold. -/
theorem vip_boundary_levels :
    eligibleVipLevel 4999 = 2 ∧ eligibleVipLevel 5000 = 3 ∧
    (∃ ld ∈ VIP_LEVELS_DATA, ld.level = 2 ∧ ld.name = "Silver") ∧
    (∃ ld ∈ VIP_LEVELS_DATA, ld.level = 3 ∧ ld.name = "Gold") := by
  decide

/-- C5 (counterexample): the agent table holds a tier of level 0 whose
threshold 0 is met at earnings 0, yet get_agent_level 0 returns 1 —
the scan at 0 does not yield the lowest tier of the table. -/
theorem agent_level_zero_cex :
    get_agent_level 0 = 1 ∧
    (∃ al ∈ AGENCY_LEVELS, al.level = 0 ∧ al.monthly_threshold ≤ 0) := by
  decide

/-- C5 (amended): for every non-negative v, each scan returns the
highest tier of its table whose threshold is at most v (for the VIP
table, whose thresholds are strictly increasing, this is the tier with
the greatest threshold not exceeding v); eligibleVipLevel 0 is the
lowest VIP level 0, but get_agent_level 0 is 1 rather than the lowest
agent level 0, because agent levels 0 and 1 share threshold 0 and the
scan prefers the higher level. -/
theorem tier_scan_greatest (v : ℚ) (hv : 0 ≤ v) :
    (∃ ld ∈ VIP_LEVELS_DATA, ld.level = eligibleVipLevel v ∧ ld.recharge_requirement ≤ v) ∧
    (∀ ld ∈ VIP_LEVELS_DATA, ld.recharge_requirement ≤ v → ld.level ≤ eligibleVipLevel v) ∧
    eligibleVipLevel 0 = 0 ∧
    (∃ al ∈ AGENCY_LEVELS, al.level = get_agent_level v ∧ al.monthly_threshold ≤ v) ∧
    (∀ al ∈ AGENCY_LEVELS, al.monthly_threshold ≤ v → al.level ≤ get_agent_level v) ∧
    get_agent_level 0 = 1 := by
  refine ⟨?_, ?_, by decide, ?_, ?_, by decide⟩
  · rw [eligibleVipLevel_closed v hv]
    split_ifs with h1 h2 h3 h4 h5
    · exact ⟨VIP_LEVELS_DATA[5], by decide, rfl, h1⟩
    · exact ⟨VIP_LEVELS_DATA[4], by decide, rfl, h2⟩
    · exact ⟨VIP_LEVELS_DATA[3], by decide, rfl, h3⟩
    · exact ⟨VIP_LEVELS_DATA[2], by decide, rfl, h4⟩
    · exact ⟨VIP_LEVELS_DATA[1], by decide, rfl, h5⟩
    · exact ⟨VIP_LEVELS_DATA[0], by decide, rfl, hv⟩
  · rw [eligibleVipLevel_closed v hv]
    intro ld hld hreq
    fin_cases hld <;> norm_num at hreq ⊢ <;> split_ifs <;> first | norm_num | linarith
  · rw [get_agent_level_closed v hv]
    split_ifs with h1 h2 h3 h4
    · exact ⟨AGENCY_LEVELS[5], by decide, rfl, h1⟩
    · exact ⟨AGENCY_LEVELS[4], by decide, rfl, h2⟩
    · exact ⟨AGENCY_LEVELS[3], by decide, rfl, h3⟩
    · exact ⟨AGENCY_LEVELS[2], by decide, rfl, h4⟩
    · exact ⟨AGENCY_LEVELS[1], by decide, rfl, hv⟩
  · rw [get_agent_level_closed v hv]
    intro al hal hreq
    fin_cases hal <;> norm_num at hreq ⊢ <;> split_ifs <;> first | norm_num | linarith

/-- C5 (witness): the scan properties instantiated at accumulated
value 600. -/
theorem tier_scan_greatest_witness :
    (0 : ℚ) ≤ 600 ∧
    ((∃ ld ∈ VIP_LEVELS_DATA, ld.level = eligibleVipLevel 600 ∧ ld.recharge_requirement ≤ 600) ∧
     (∀ ld ∈ VIP_LEVELS_DATA, ld.recharge_requirement ≤ 600 → ld.level ≤ eligibleVipLevel 600) ∧
     eligibleVipLevel 0 = 0 ∧
     (∃ al ∈ AGENCY_LEVELS, al.level = get_agent_level 600 ∧ al.monthly_threshold ≤ 600) ∧
     (∀ al ∈ AGENCY_LEVELS, al.monthly_threshold ≤ 600 → al.level ≤ get_agent_level 600) ∧
     get_agent_level 0 = 1) :=
  ⟨by norm_num, tier_scan_greatest 600 (by norm_num)⟩

/-- C6: trailing 30-day earnings of exactly 2000000 fall in the
4 percent bracket, whose inclusive upper bound is 2000000, and
earnings of exactly 2000001 fall in the 8 percent bracket. -/
theorem commission_rate_boundary :
    (get_commission_rate 2000000).1 = 4 ∧
    (get_commission_rate 2000000).2 = { min := 0, max := 2000000, rate := 4 } ∧
    (get_commission_rate 2000001).1 = 8 ∧
    (get_commission_rate 2000001).2 = { min := 2000001, max := 10000000, rate := 8 } := by
  decide

/-- C7: for a whole-coin bet b within the configured bounds played
against a wallet whose coins balance covers the bet and is a whole
number of hundredths, a winning draw (random number at most 45) pays
won_amount of 70 percent of the bet with 30 percent recorded for
charity and a balance change of 70 percent of the bet minus the bet —
a net loss even on a win — while a losing draw takes the full bet with
45 percent recorded for charity and 55 percent for the platform. -/
theorem play_lucky_wallet_payout (b : ℕ) (n : ℕ) (w : Wallet) (k : ℤ)
    (hb1 : 10 ≤ b) (hb2 : b ≤ 100000) (hw : (b : ℚ) ≤ w.coins_balance)
    (hcb : w.coins_balance * 100 = (k : ℚ)) :
    (n ≤ 45 →
      play_lucky_wallet b n w =
        .ok ({ w with coins_balance := w.coins_balance + (70 * b / 100 - b) },
             { result := "win", won_amount := 70 * b / 100,
               charity_amount := 30 * b / 100, platform_amount := 0,
               balance_change := 70 * b / 100 - b,
               new_balance := w.coins_balance + (70 * b / 100 - b) },
             [ { transaction_type := "lucky_wallet_win", amount := 70 * b / 100 - b,
                 currency_type := "coins", status := "completed" } ])) ∧
    (45 < n →
      play_lucky_wallet b n w =
        .ok ({ w with coins_balance := w.coins_balance - b },
             { result := "lose", won_amount := 0, charity_amount := 45 * b / 100,
               platform_amount := 55 * b / 100, balance_change := -(b : ℚ),
               new_balance := w.coins_balance - b },
             [ { transaction_type := "lucky_wallet_bet", amount := -(b : ℚ),
                 currency_type := "coins", status := "completed" } ])) := by
  have g1 : ¬ ((b : ℚ) < CHARITY_LUCKY_WALLET_CONFIG.min_bet) := by
    simp only [CHARITY_LUCKY_WALLET_CONFIG]
    push_neg
    exact_mod_cast hb1
  have g2 : ¬ ((b : ℚ) > CHARITY_LUCKY_WALLET_CONFIG.max_bet) := by
    simp only [CHARITY_LUCKY_WALLET_CONFIG]
    push_neg
    exact_mod_cast hb2
  have g3 : ¬ (w.coins_balance < (b : ℚ)) := not_lt.mpr hw
  have r1 : round2 ((b : ℚ) * (CHARITY_LUCKY_WALLET_CONFIG.win_user_percent / 100)) = 70 * b / 100 := by
    rw [round2_eq_self _ (70 * b) (by simp [CHARITY_LUCKY_WALLET_CONFIG]; push_cast; ring)]
    simp [CHARITY_LUCKY_WALLET_CONFIG]
    ring
  have r2 : round2 ((b : ℚ) * (CHARITY_LUCKY_WALLET_CONFIG.win_charity_percent / 100)) = 30 * b / 100 := by
    rw [round2_eq_self _ (30 * b) (by simp [CHARITY_LUCKY_WALLET_CONFIG]; push_cast; ring)]
    simp [CHARITY_LUCKY_WALLET_CONFIG]
    ring
  have r3 : round2 ((b : ℚ) * (CHARITY_LUCKY_WALLET_CONFIG.lose_charity_percent / 100)) = 45 * b / 100 := by
    rw [round2_eq_self _ (45 * b) (by simp [CHARITY_LUCKY_WALLET_CONFIG]; push_cast; ring)]
    simp [CHARITY_LUCKY_WALLET_CONFIG]
    ring
  have r4 : round2 ((b : ℚ) * (CHARITY_LUCKY_WALLET_CONFIG.lose_platform_percent / 100)) = 55 * b / 100 := by
    rw [round2_eq_self _ (55 * b) (by simp [CHARITY_LUCKY_WALLET_CONFIG]; push_cast; ring)]
    simp [CHARITY_LUCKY_WALLET_CONFIG]
    ring
  constructor
  · intro hn
    have hwin : n ≤ CHARITY_LUCKY_WALLET_CONFIG.winning_rate := by
      simpa [CHARITY_LUCKY_WALLET_CONFIG] using hn
    simp only [play_lucky_wallet, g1, g2, g3, if_false, hwin, if_true, r1, r2]
    have r5 : round2 (w.coins_balance + (70 * (b : ℚ) / 100 - b)) =
        w.coins_balance + (70 * b / 100 - b) := by
      apply round2_eq_self _ (k + 70 * b - 100 * b)
      push_cast
      linear_combination hcb
    simp only [r5]
    norm_num
    decide
  · intro hn
    have hlose : ¬ (n ≤ CHARITY_LUCKY_WALLET_CONFIG.winning_rate) := by
      simpa [CHARITY_LUCKY_WALLET_CONFIG] using hn
    simp only [play_lucky_wallet, g1, g2, g3, if_false, hlose, r3, r4]
    have r5 : round2 (w.coins_balance + -(b : ℚ)) = w.coins_balance - b := by
      rw [round2_eq_self _ (k - 100 * b) (by push_cast; linear_combination hcb)]
      ring
    simp only [r5]
    norm_num

/-- C7 (witness): a winning play of 100 coins pays 70, routes 30 to
charity, and moves the balance from 1000 to 970, a change of minus
30. -/
theorem play_lucky_wallet_payout_witness :
    play_lucky_wallet 100 10
        { coins_balance := 1000, stars_balance := 0, bonus_balance := 0, withdrawable_balance := 0,
          total_deposited := 0, total_withdrawn := 0 } =
      .ok ({ coins_balance := 970, stars_balance := 0, bonus_balance := 0, withdrawable_balance := 0,
             total_deposited := 0, total_withdrawn := 0 },
           { result := "win", won_amount := 70, charity_amount := 30, platform_amount := 0,
             balance_change := -30, new_balance := 970 },
           [ { transaction_type := "lucky_wallet_win", amount := -30, currency_type := "coins",
               status := "completed" } ]) := by
  have h := (play_lucky_wallet_payout 100 10
      { coins_balance := 1000, stars_balance := 0, bonus_balance := 0, withdrawable_balance := 0,
        total_deposited := 0, total_withdrawn := 0 }
      100000 (by norm_num) (by norm_num) (by norm_num) (by norm_num)).1 (by norm_num)
  have e : ((100 : ℕ) : ℚ) = (100 : ℚ) := by norm_num
  rw [← e, h]
  norm_num

/-- C8: mark_notification_read always returns the success response,
never changes the number of stored notification documents, and when
every matching notification is already read it leaves the whole store
unchanged — re-invoking it on an already-read notification is a no-op
with the same success response. -/
theorem mark_notification_read_idem (nid uid : String) (store : List NotificationDoc) :
    (mark_notification_read nid uid store).2 = true ∧
    (mark_notification_read nid uid store).1.length = store.length ∧
    ((∀ d ∈ store, (d.notification_id == nid && d.user_id == uid) = true → d.is_read = true) →
      mark_notification_read nid uid store = (store, true)) := by
  refine ⟨rfl, updateOne_length _ _ _, ?_⟩
  intro h
  unfold mark_notification_read
  rw [updateOne_eq_self _ _ _ (fun d hd hm => ?_)]
  have hr := h d hd hm
  cases d
  simp_all

/-- C8 (witness): marking an already-read notification read again
returns success and leaves the one-document store unchanged. -/
theorem mark_notification_read_idem_witness :
    (mark_notification_read ("n1") ("u1")
        [ { notification_id := "n1", user_id := "u1", title := "Deposit Successful",
            message := "credited", notification_type := "wallet", is_read := true,
            action_url := "/wallet" } ]).2 = true ∧
    (mark_notification_read ("n1") ("u1")
        [ { notification_id := "n1", user_id := "u1", title := "Deposit Successful",
            message := "credited", notification_type := "wallet", is_read := true,
            action_url := "/wallet" } ]).1.length =
      [ ({ notification_id := "n1", user_id := "u1", title := "Deposit Successful",
           message := "credited", notification_type := "wallet", is_read := true,
           action_url := "/wallet" } : NotificationDoc) ].length ∧
    mark_notification_read ("n1") ("u1")
        [ { notification_id := "n1", user_id := "u1", title := "Deposit Successful",
            message := "credited", notification_type := "wallet", is_read := true,
            action_url := "/wallet" } ] =
      ([ { notification_id := "n1", user_id := "u1", title := "Deposit Successful",
           message := "credited", notification_type := "wallet", is_read := true,
           action_url := "/wallet" } ], true) := by
  have h := mark_notification_read_idem ("n1") ("u1")
    [ { notification_id := "n1", user_id := "u1", title := "Deposit Successful",
        message := "credited", notification_type := "wallet", is_read := true,
        action_url := "/wallet" } ]
  exact ⟨h.1, h.2.1, h.2.2 (by decide)⟩

/-- C9: a transfer whose source and destination name the same
sub-balance builds a one-entry $inc document in which the credit
overwrites the debit, so a request for amount a with sufficient
balance succeeds and increases that sub-balance by a instead of
leaving it unchanged. -/
theorem transfer_same_key_credits (bal : String) (a : ℚ) (w : Wallet)
    (hmem : (bal ++ "_balance") ∈ valid_balances) (ha : 0 < a)
    (hsuff : a ≤ getField w (bal ++ "_balance")) :
    ∃ w2, transfer_balance a bal bal w = .ok (w2, []) ∧
      getField w2 (bal ++ "_balance") = getField w (bal ++ "_balance") + a := by
  refine ⟨setField w (bal ++ "_balance") (getField w (bal ++ "_balance") + a), ?_, ?_⟩
  · simp [transfer_balance, hmem, not_le.mpr ha, not_lt.mpr hsuff,
      transferIncDoc, dictInsert, applyInc]
  · exact getField_setField_self w (bal ++ "_balance") _ hmem

/-- C9 (witness): transferring 10 coins to coins lifts a balance of
100 to 110. -/
theorem transfer_same_key_credits_witness :
    ∃ w2, transfer_balance 10 ("coins") ("coins")
        { coins_balance := 100, stars_balance := 0, bonus_balance := 0, withdrawable_balance := 0,
          total_deposited := 0, total_withdrawn := 0 } = .ok (w2, []) ∧
      getField w2 ("coins" ++ "_balance") =
        getField
          { coins_balance := 100, stars_balance := 0, bonus_balance := 0, withdrawable_balance := 0,
            total_deposited := 0, total_withdrawn := 0 } ("coins" ++ "_balance") + 10 :=
  transfer_same_key_credits ("coins") 10
    { coins_balance := 100, stars_balance := 0, bonus_balance := 0, withdrawable_balance := 0,
      total_deposited := 0, total_withdrawn := 0 } (by decide) (by norm_num) (by decide)

/-- C10: every earnings value lying strictly between the inclusive
upper bound of one commission bracket and the lower bound of the next
is contained in no bracket, and get_commission_rate falls through to
its default of rate 20 with the last bracket of the table. -/
theorem commission_gap (v : ℚ)
    (h : 2000000 < v ∧ v < 2000001 ∨ 10000000 < v ∧ v < 10000001 ∨
         50000000 < v ∧ v < 50000001 ∨ 150000000 < v ∧ v < 150000001) :
    (∀ b ∈ COMMISSION_BRACKETS, ¬ (b.min ≤ v ∧ v ≤ b.max)) ∧
    get_commission_rate v = (20, COMMISSION_BRACKETS.getLastD { min := 0, max := 0, rate := 20 }) := by
  have hall : ∀ b ∈ COMMISSION_BRACKETS, ¬ (b.min ≤ v ∧ v ≤ b.max) := by
    intro brk hbrk
    fin_cases hbrk <;> rintro ⟨h1, h2⟩ <;> norm_num at h1 h2 <;>
      rcases h with ⟨ha, hb⟩ | ⟨ha, hb⟩ | ⟨ha, hb⟩ | ⟨ha, hb⟩ <;> linarith
  exact ⟨hall, commissionLoop_no_match v COMMISSION_BRACKETS hall⟩

/-- C10 (witness): earnings of 2000000.5 sit in the gap between the
4 percent and 8 percent brackets and take the default rate of 20. -/
theorem commission_gap_witness :
    ((2000000 : ℚ) < 4000001 / 2 ∧ (4000001 : ℚ) / 2 < 2000001) ∧
    (∀ b ∈ COMMISSION_BRACKETS, ¬ (b.min ≤ (4000001 : ℚ) / 2 ∧ (4000001 : ℚ) / 2 ≤ b.max)) ∧
    get_commission_rate (4000001 / 2) =
      (20, COMMISSION_BRACKETS.getLastD { min := 0, max := 0, rate := 20 }) :=
  ⟨⟨by norm_num, by norm_num⟩,
   commission_gap (4000001 / 2) (Or.inl ⟨by norm_num, by norm_num⟩)⟩
